import Mathlib

/-!
Verification of the ResNet-34 notebook (`main.ipynb`).

The notebook defines, using the Keras layer API:
  * `DefaultConv2D`, a convolution template (kernel 3, stride 1, "same"
    padding, "he_normal" initializer, no bias), with overridable
    kernel size and stride;
  * `ResUnit`, a residual unit owning `main_layers` (5 sub-layers) and
    `skip_layers` (empty, or a 1x1 projection + normalization when
    `strides > 1`), whose `call` folds the input through both paths,
    adds the results elementwise and applies the shared activation;
  * a sequential `model`: a stem (conv 7/2, batch-norm, relu, max-pool
    3/2), sixteen residual units driven by `filter_configuration` with
    the stride rule `1 if filters == previous_filters else 2`, and a
    head (global average pool, flatten, dense 10 + softmax).

We embed the layer configurations as inductive data, the unit and the
builder as Lean functions mirroring the Python, and give three
semantics: an abstract one (layers interpreted by an arbitrary
environment, since the convolution/normalization kernels are external
framework code), a shape semantics (Keras "same"-padding shape
inference), and a rational-valued semantics for the dense+softmax head.
-/

/-- Configuration of a sub-layer usable inside a residual unit:
a 2-D convolution (filters, kernel size, strides, padding policy,
kernel initializer, use-bias flag), a batch-normalization layer, or a
pointwise activation named by a string. -/
inductive SubLayer where
  | conv2d (filters kernel_size strides : ℕ)
      (padding kernel_initializer : String) (use_bias : Bool)
  | batchNorm
  | activationOf (name : String)
  deriving DecidableEq, Repr

/-- `DefaultConv2D` from the notebook: `partial(Conv2D, kernel_size=3,
strides=1, padding="same", kernel_initializer="he_normal",
use_bias=False)`; kernel size and strides can be overridden at the
call site. -/
def DefaultConv2D (filters : ℕ) (kernel_size : ℕ := 3) (strides : ℕ := 1) : SubLayer :=
  SubLayer.conv2d filters kernel_size strides "same" "he_normal" false

/-- The state of a constructed `ResUnit`: the shared activation layer
and the two ordered sub-layer sequences. -/
structure ResUnit where
  activation : SubLayer
  main_layers : List SubLayer
  skip_layers : List SubLayer
  deriving DecidableEq, Repr

/-- `ResUnit.__init__`: stores the activation, builds the five
main-path sub-layers (conv(3,strides) → BN → activation → conv(3,1) →
BN) and, exactly when `strides > 1`, the two skip-path sub-layers
(conv(1,strides) → BN); otherwise `skip_layers` stays `[]`. -/
def ResUnit.init (filters : ℕ) (strides : ℕ := 1) (activation : String := "relu") : ResUnit :=
  let act := SubLayer.activationOf activation
  { activation := act
    main_layers :=
      [DefaultConv2D filters 3 strides,
       SubLayer.batchNorm,
       act,
       DefaultConv2D filters,
       SubLayer.batchNorm]
    skip_layers :=
      if strides > 1 then
        [DefaultConv2D filters 1 strides,
         SubLayer.batchNorm]
      else [] }

/-- `ResUnit.call` over an abstract tensor type `T`: the environment
`env` interprets each sub-layer as a tensor transformation (the
framework kernels are external), `add` is the elementwise tensor
addition. Mirrors the Python: fold the input through `main_layers`,
fold the same input through `skip_layers`, add, then apply the shared
activation once more. -/
def ResUnit.call {T : Type} (u : ResUnit) (env : SubLayer → T → T)
    (add : T → T → T) (inputs : T) : T :=
  let main_output := u.main_layers.foldl (fun t l => env l t) inputs
  let skip_output := u.skip_layers.foldl (fun t l => env l t) inputs
  env u.activation (add main_output skip_output)

/-- A layer of the sequential model: a plain sub-layer (optionally
carrying Keras's `input_shape` declaration), a max-pool, a residual
unit, global average pooling, flatten, or a dense layer with an
activation name. -/
inductive Layer where
  | sub (l : SubLayer) (input_shape : Option (List ℕ))
  | maxPool2d (pool_size strides : ℕ) (padding : String)
  | res (u : ResUnit)
  | globalAvgPool2d
  | flatten
  | dense (units : ℕ) (activation : String)
  deriving DecidableEq, Repr

/-- The notebook's per-unit filter schedule:
`[64]*3 + [128]*4 + [256]*6 + [512]*3`. -/
def filter_configuration : List ℕ :=
  List.replicate 3 64 ++ List.replicate 4 128 ++
  List.replicate 6 256 ++ List.replicate 3 512

/-- The stride rule of the builder loop, as a list transformer: given
`previous_filters` and the remaining schedule, emit
`1 if filters == previous_filters else 2` for each entry, updating
`previous_filters` as the loop does. -/
def stridesFrom (previous_filters : ℕ) : List ℕ → List ℕ
  | [] => []
  | filters :: rest =>
    (if filters = previous_filters then 1 else 2) :: stridesFrom filters rest

/-- The builder loop: for each schedule entry, add a `ResUnit` with the
stride derived from `previous_filters`, then update `previous_filters`. -/
def addUnits (previous_filters : ℕ) : List ℕ → List Layer
  | [] => []
  | filters :: rest =>
    Layer.res (ResUnit.init filters (if filters = previous_filters then 1 else 2))
      :: addUnits filters rest

/-- The full sequential model of the notebook: stem, sixteen residual
units from `filter_configuration` starting at `previous_filters = 64`,
then the classification head. -/
def model : List Layer :=
  [Layer.sub (DefaultConv2D 64 7 2) (some [224, 224, 3]),
   Layer.sub SubLayer.batchNorm none,
   Layer.sub (SubLayer.activationOf "relu") none,
   Layer.maxPool2d 3 2 "same"]
  ++ addUnits 64 filter_configuration
  ++ [Layer.globalAvgPool2d, Layer.flatten, Layer.dense 10 "softmax"]

/-- C1: for the canonical schedule with `previous_filters = 64`, the
builder's stride rule derives exactly
`[1,1,1,2,1,1,1,2,1,1,1,1,1,2,1,1]`; in particular the first residual
unit receives stride 1. -/
theorem c1_stride_schedule :
    filter_configuration =
      [64, 64, 64, 128, 128, 128, 128, 256, 256, 256, 256, 256, 256, 512, 512, 512] ∧
    stridesFrom 64 filter_configuration =
      [1, 1, 1, 2, 1, 1, 1, 2, 1, 1, 1, 1, 1, 2, 1, 1] ∧
    (stridesFrom 64 filter_configuration).head? = some 1 := by
  refine ⟨by decide, by decide, by decide⟩

/-- The model, with the builder loop fully unrolled: stem, the sixteen
units with their resolved strides, head. Shared by the order and the
end-to-end theorems. -/
theorem model_unfold :
    model =
      [Layer.sub (SubLayer.conv2d 64 7 2 "same" "he_normal" false) (some [224, 224, 3]),
       Layer.sub SubLayer.batchNorm none,
       Layer.sub (SubLayer.activationOf "relu") none,
       Layer.maxPool2d 3 2 "same",
       Layer.res (ResUnit.init 64 1 "relu"),
       Layer.res (ResUnit.init 64 1 "relu"),
       Layer.res (ResUnit.init 64 1 "relu"),
       Layer.res (ResUnit.init 128 2 "relu"),
       Layer.res (ResUnit.init 128 1 "relu"),
       Layer.res (ResUnit.init 128 1 "relu"),
       Layer.res (ResUnit.init 128 1 "relu"),
       Layer.res (ResUnit.init 256 2 "relu"),
       Layer.res (ResUnit.init 256 1 "relu"),
       Layer.res (ResUnit.init 256 1 "relu"),
       Layer.res (ResUnit.init 256 1 "relu"),
       Layer.res (ResUnit.init 256 1 "relu"),
       Layer.res (ResUnit.init 256 1 "relu"),
       Layer.res (ResUnit.init 512 2 "relu"),
       Layer.res (ResUnit.init 512 1 "relu"),
       Layer.res (ResUnit.init 512 1 "relu"),
       Layer.globalAvgPool2d, Layer.flatten, Layer.dense 10 "softmax"] := by
  rfl

/-- C2: evaluating a `ResUnit` returns `activation(main(x) + skip(x))`:
the main path applies its 5 sub-layers sequentially, the skip path
applies its 0 or 2 sub-layers to the same original input, the results
are added elementwise, and the sum passes once more through the shared
activation — the very sub-layer sitting at position 2 of the main path. -/
theorem c2_call_structure {T : Type} (env : SubLayer → T → T) (add : T → T → T)
    (filters strides : ℕ) (a : String) (x : T) :
    ResUnit.call (ResUnit.init filters strides a) env add x =
      env (SubLayer.activationOf a)
        (add
          (env SubLayer.batchNorm
            (env (SubLayer.conv2d filters 3 1 "same" "he_normal" false)
              (env (SubLayer.activationOf a)
                (env SubLayer.batchNorm
                  (env (SubLayer.conv2d filters 3 strides "same" "he_normal" false) x)))))
          (if strides > 1 then
            env SubLayer.batchNorm
              (env (SubLayer.conv2d filters 1 strides "same" "he_normal" false) x)
          else x)) ∧
    (ResUnit.init filters strides a).main_layers.get? 2 =
      some (ResUnit.init filters strides a).activation := by
  constructor
  · by_cases h : strides > 1 <;>
      simp [ResUnit.init, ResUnit.call, DefaultConv2D, h, List.foldl]
  · rfl

/-- C3: the constructor builds a non-empty skip path — a 1x1
convolution at the same stride and filter count without bias, then
batch-normalization — exactly when `strides > 1`, and leaves the skip
path empty exactly otherwise. -/
theorem c3_skip_condition (filters strides : ℕ) (a : String) :
    ((ResUnit.init filters strides a).skip_layers =
        [SubLayer.conv2d filters 1 strides "same" "he_normal" false,
         SubLayer.batchNorm] ↔ strides > 1) ∧
    ((ResUnit.init filters strides a).skip_layers = [] ↔ ¬ strides > 1) := by
  by_cases h : strides > 1 <;>
    simp [ResUnit.init, DefaultConv2D, h]

/-- C4: every constructed `ResUnit` has exactly 5 main-path sub-layers
and exactly 0 or exactly 2 skip-path sub-layers. (The embedding is
pure, so the lists cannot change after construction.) -/
theorem c4_layer_counts (filters strides : ℕ) (a : String) :
    (ResUnit.init filters strides a).main_layers.length = 5 ∧
    ((ResUnit.init filters strides a).skip_layers.length = 0 ∨
     (ResUnit.init filters strides a).skip_layers.length = 2) := by
  refine ⟨rfl, ?_⟩
  by_cases h : strides > 1 <;> simp [ResUnit.init, h]

/-- C5: the main path follows the fixed template — conv(kernel 3, the
given stride, "same", "he_normal", no bias), batch-norm, the shared
activation, a second template conv at stride 1, a second batch-norm —
in that order. -/
theorem c5_main_template (filters strides : ℕ) (a : String) :
    (ResUnit.init filters strides a).main_layers =
      [SubLayer.conv2d filters 3 strides "same" "he_normal" false,
       SubLayer.batchNorm,
       SubLayer.activationOf a,
       SubLayer.conv2d filters 3 1 "same" "he_normal" false,
       SubLayer.batchNorm] := by
  rfl

/-- C6: the builder emits, in order: the stem (conv kernel 7, stride 2,
"same", no bias, declared input 224x224x3; batch-norm; relu; max-pool
window 3, stride 2, "same"), one residual unit per schedule entry in
schedule order, then global average pooling, flatten, and dense(10)
with softmax. -/
theorem c6_layer_order :
    model =
      [Layer.sub (SubLayer.conv2d 64 7 2 "same" "he_normal" false) (some [224, 224, 3]),
       Layer.sub SubLayer.batchNorm none,
       Layer.sub (SubLayer.activationOf "relu") none,
       Layer.maxPool2d 3 2 "same"]
      ++ (List.zip filter_configuration (stridesFrom 64 filter_configuration)).map
          (fun fs => Layer.res (ResUnit.init fs.1 fs.2 "relu"))
      ++ [Layer.globalAvgPool2d, Layer.flatten, Layer.dense 10 "softmax"] := by
  decide

/-- Checks that a layer, if it is a dense layer at all, is the
hard-coded `dense 10 "softmax"` head. -/
def denseOnlyTenSoftmax : Layer → Bool
  | Layer.dense units act => units == 10 && act == "softmax"
  | _ => true

/-- C10: the classification head's class count is hard-coded: the last
layer of every model the builder constructs is `dense 10 "softmax"`,
and no other dense layer occurs anywhere in the model. -/
theorem c10_ten_classes :
    model.getLast? = some (Layer.dense 10 "softmax") ∧
    ∀ l ∈ model, denseOnlyTenSoftmax l = true := by
  decide

/-- C9: determinism — two independently constructed `ResUnit` instances
with identical configuration, interpreted with identical parameter
values (the same layer environment) on identical inputs, produce
identical outputs. -/
theorem c9_deterministic {T : Type} (f1 f2 s1 s2 : ℕ) (a1 a2 : String)
    (hf : f1 = f2) (hs : s1 = s2) (ha : a1 = a2)
    (env : SubLayer → T → T) (add : T → T → T) (x : T) :
    ResUnit.call (ResUnit.init f1 s1 a1) env add x =
      ResUnit.call (ResUnit.init f2 s2 a2) env add x := by
  subst hf; subst hs; subst ha; rfl

/-- Witness for C9 at a concrete configuration and a concrete
interpretation over natural numbers. -/
theorem c9_deterministic_witness :
    ResUnit.call (ResUnit.init 128 2 "relu") (fun _ n => n + 1) (fun a b => a + b) 0 =
      ResUnit.call (ResUnit.init 128 2 "relu") (fun _ n => n + 1) (fun a b => a + b) 0 :=
  c9_deterministic 128 128 2 2 "relu" "relu" rfl rfl rfl
    (fun _ n => n + 1) (fun a b => a + b) 0

/-- Ceiling division: the spatial output size of a "same"-padded
convolution or pool of stride `s` over `h` positions, `ceil(h / s)`. -/
def ceilDiv (h s : ℕ) : ℕ := (h + s - 1) / s

/-- Keras shape inference for a sub-layer over NHWC shapes: a
convolution maps `[n,h,w,c]` to `[n, ceil(h/s), ceil(w/s), filters]`
under "same" padding (and to the valid-padding sizes otherwise);
batch-normalization and activations preserve the shape. `none` means
the layer rejects the input rank. -/
def subShape : SubLayer → List ℕ → Option (List ℕ)
  | SubLayer.conv2d filters kernel_size strides padding _ _, [n, h, w, _] =>
    if padding = "same" then
      some [n, ceilDiv h strides, ceilDiv w strides, filters]
    else
      some [n, (h - kernel_size) / strides + 1, (w - kernel_size) / strides + 1, filters]
  | SubLayer.conv2d _ _ _ _ _ _, _ => none
  | SubLayer.batchNorm, sh => some sh
  | SubLayer.activationOf _, sh => some sh

/-- Folds a shape through an ordered sequence of sub-layers, failing as
soon as one rejects its input. -/
def applySeqShape : List SubLayer → List ℕ → Option (List ℕ)
  | [], sh => some sh
  | l :: ls, sh =>
    match subShape l sh with
    | some sh2 => applySeqShape ls sh2
    | none => none

/-- Modelled from the spec: the elementwise tensor addition of the
underlying engine is defined only when both operands have exactly the
same shape ("the skip path must match the main path's output shape
exactly"); on a mismatch the add fails. -/
def addShape (s1 s2 : List ℕ) : Option (List ℕ) :=
  if s1 = s2 then some s1 else none

/-- Shape behaviour of `ResUnit.call`: the main path's shape, the skip
path's shape (the input shape itself when `skip_layers` is empty), the
elementwise add, then the shared activation. -/
def ResUnit.callShape (u : ResUnit) (sh : List ℕ) : Option (List ℕ) :=
  match applySeqShape u.main_layers sh, applySeqShape u.skip_layers sh with
  | some m, some sk =>
    match addShape m sk with
    | some r => subShape u.activation r
    | none => none
  | _, _ => none

/-- Keras shape inference for a model layer: sub-layers check the
declared `input_shape` when one is present; max-pool follows the same
"same"/valid sizing as convolutions with an unchanged channel count;
global average pooling collapses `[n,h,w,c]` to `[n,c]`; flatten keeps
the batch dimension and multiplies out the rest; dense replaces the
feature count of `[n,c]` by its unit count. -/
def outShape : Layer → List ℕ → Option (List ℕ)
  | Layer.sub l (some declared), sh =>
    if sh.drop 1 = declared then subShape l sh else none
  | Layer.sub l none, sh => subShape l sh
  | Layer.maxPool2d pool_size strides padding, [n, h, w, c] =>
    if padding = "same" then
      some [n, ceilDiv h strides, ceilDiv w strides, c]
    else
      some [n, (h - pool_size) / strides + 1, (w - pool_size) / strides + 1, c]
  | Layer.maxPool2d _ _ _, _ => none
  | Layer.res u, sh => u.callShape sh
  | Layer.globalAvgPool2d, [n, _, _, c] => some [n, c]
  | Layer.globalAvgPool2d, _ => none
  | Layer.flatten, n :: rest => some [n, rest.prod]
  | Layer.flatten, _ => none
  | Layer.dense units _, [n, _] => some [n, units]
  | Layer.dense _ _, _ => none

/-- Folds a shape through an ordered sequence of model layers. -/
def foldShape : List Layer → List ℕ → Option (List ℕ)
  | [], sh => some sh
  | l :: ls, sh =>
    match outShape l sh with
    | some sh2 => foldShape ls sh2
    | none => none

/-- The full model maps a batch of `224 × 224 × 3` images to a batch of
10-entry rows, for every batch size. -/
theorem modelShape_batch (n : ℕ) : foldShape model [n, 224, 224, 3] = some [n, 10] := by
  rw [model_unfold]
  simp [foldShape, outShape, subShape, applySeqShape, ResUnit.callShape, addShape,
    ResUnit.init, DefaultConv2D, ceilDiv]

/-- A numeric tensor: a shape together with rational-valued entries
indexed by multi-indices. Rationals stand in for the engine's
floating-point values. -/
structure RTensor where
  shape : List ℕ
  data : List ℕ → ℚ

/-- Softmax over the first `m` logits, with the exponential supplied as
a parameter `expF` (the engine's exponential; only its positivity
matters): entry `i` is `expF (z i)` divided by the sum of all
`expF (z j)`. -/
def softmax (expF : ℚ → ℚ) (m : ℕ) (z : ℕ → ℚ) (i : ℕ) : ℚ :=
  expF (z i) / ∑ j ∈ Finset.range m, expF (z j)

/-- One output row of a dense layer with softmax activation: logits are
the affine map `∑ k, x k * W k j + b j` over `in_features` inputs,
normalized by `softmax`. -/
def denseSoftmaxRow (expF : ℚ → ℚ) (in_features : ℕ) (W : ℕ → ℕ → ℚ) (b : ℕ → ℚ)
    (x : ℕ → ℚ) (units i : ℕ) : ℚ :=
  softmax expF units (fun j => (∑ k ∈ Finset.range in_features, x k * W k j) + b j) i

/-- Numeric semantics of a model layer: the dense+softmax head is
computed by `denseSoftmaxRow` from the head's weights `W` and biases
`b`; every other layer is an external framework kernel, interpreted by
the environment `env`. -/
def applyNum (expF : ℚ → ℚ) (env : Layer → RTensor → RTensor)
    (W : ℕ → ℕ → ℚ) (b : ℕ → ℚ) (t : RTensor) (l : Layer) : RTensor :=
  match l with
  | Layer.dense units act =>
    if act = "softmax" then
      { shape := [t.shape.getD 0 0, units]
        data := fun idx =>
          denseSoftmaxRow expF (t.shape.getD 1 0) W b
            (fun k => t.data [idx.getD 0 0, k]) units (idx.getD 1 0) }
    else env l t
  | _ => env l t

/-- Numeric evaluation of the full model: fold the input tensor through
all layers. -/
def modelNum (expF : ℚ → ℚ) (env : Layer → RTensor → RTensor)
    (W : ℕ → ℕ → ℚ) (b : ℕ → ℚ) (x : RTensor) : RTensor :=
  model.foldl (applyNum expF env W b) x

/-- Every `denseSoftmaxRow` entry is non-negative when the exponential
is positive. -/
theorem denseSoftmaxRow_nonneg (expF : ℚ → ℚ) (hp : ∀ q, 0 < expF q)
    (c : ℕ) (W : ℕ → ℕ → ℚ) (b : ℕ → ℚ) (x : ℕ → ℚ) (units i : ℕ) :
    0 ≤ denseSoftmaxRow expF c W b x units i :=
  div_nonneg (hp _).le (Finset.sum_nonneg fun _ _ => (hp _).le)

/-- A `denseSoftmaxRow` output row sums to 1 when the exponential is
positive and there is at least one unit. -/
theorem denseSoftmaxRow_sum_one (expF : ℚ → ℚ) (hp : ∀ q, 0 < expF q)
    (c : ℕ) (W : ℕ → ℕ → ℚ) (b : ℕ → ℚ) (x : ℕ → ℚ) (units : ℕ) (hu : 0 < units) :
    (∑ i ∈ Finset.range units, denseSoftmaxRow expF c W b x units i) = 1 := by
  unfold denseSoftmaxRow softmax
  rw [← Finset.sum_div]
  exact div_self (ne_of_gt (Finset.sum_pos (fun _ _ => hp _)
    (Finset.nonempty_range_iff.mpr hu.ne')))

/-- Numeric evaluation of the model factors through its last layer, the
dense+softmax head. -/
theorem modelNum_eq_head (expF : ℚ → ℚ) (env : Layer → RTensor → RTensor)
    (W : ℕ → ℕ → ℚ) (b : ℕ → ℚ) (x : RTensor) :
    modelNum expF env W b x =
      applyNum expF env W b
        (List.foldl (applyNum expF env W b) x (List.dropLast model))
        (Layer.dense 10 "softmax") := by
  unfold modelNum
  rw [model_unfold]
  rfl

/-- C8: the fully built network maps an input batch of shape
`(N,224,224,3)` to an output of shape `(N,10)`; numerically, whatever
the external layers and the head parameters compute, every output
entry of a row is non-negative and each row sums to 1. -/
theorem c8_output_shape_and_probabilities :
    (∀ n, foldShape model [n, 224, 224, 3] = some [n, 10]) ∧
    (∀ (expF : ℚ → ℚ), (∀ q, 0 < expF q) →
      ∀ (env : Layer → RTensor → RTensor) (W : ℕ → ℕ → ℚ) (b : ℕ → ℚ)
        (x : RTensor) (batch : ℕ),
        (∀ i, 0 ≤ (modelNum expF env W b x).data [batch, i]) ∧
        (∑ i ∈ Finset.range 10, (modelNum expF env W b x).data [batch, i]) = 1) := by
  refine ⟨modelShape_batch, ?_⟩
  intro expF hp env W b x batch
  have hd : ∀ i, (modelNum expF env W b x).data [batch, i] =
      denseSoftmaxRow expF
        ((List.foldl (applyNum expF env W b) x (List.dropLast model)).shape.getD 1 0)
        W b
        (fun k => (List.foldl (applyNum expF env W b) x (List.dropLast model)).data [batch, k])
        10 i := by
    intro i
    rw [modelNum_eq_head]
    simp [applyNum, List.getD]
  constructor
  · intro i
    rw [hd]
    exact denseSoftmaxRow_nonneg expF hp _ W b _ 10 i
  · calc (∑ i ∈ Finset.range 10, (modelNum expF env W b x).data [batch, i])
        = ∑ i ∈ Finset.range 10,
            denseSoftmaxRow expF
              ((List.foldl (applyNum expF env W b) x (List.dropLast model)).shape.getD 1 0)
              W b
              (fun k =>
                (List.foldl (applyNum expF env W b) x (List.dropLast model)).data [batch, k])
              10 i := Finset.sum_congr rfl (fun i _ => hd i)
      _ = 1 := denseSoftmaxRow_sum_one expF hp _ W b _ 10 (by decide)

/-- Witness for C8 at batch size 1, the constant exponential 1, the
identity environment and zero head parameters. -/
theorem c8_output_shape_and_probabilities_witness :
    foldShape model [1, 224, 224, 3] = some [1, 10] ∧
    (0 ≤ (modelNum (fun _ => 1) (fun _ t => t) (fun _ _ => 0) (fun _ => 0)
            ⟨[1, 224, 224, 3], fun _ => 0⟩).data [0, 0] ∧
      (∑ i ∈ Finset.range 10,
        (modelNum (fun _ => 1) (fun _ t => t) (fun _ _ => 0) (fun _ => 0)
            ⟨[1, 224, 224, 3], fun _ => 0⟩).data [0, i]) = 1) :=
  ⟨c8_output_shape_and_probabilities.1 1,
   (c8_output_shape_and_probabilities.2 (fun _ => (1 : ℚ)) (fun _ => one_pos)
      (fun _ t => t) (fun _ _ => 0) (fun _ => 0)
      ⟨[1, 224, 224, 3], fun _ => 0⟩ 0).1 0,
   (c8_output_shape_and_probabilities.2 (fun _ => (1 : ℚ)) (fun _ => one_pos)
      (fun _ t => t) (fun _ _ => 0) (fun _ => 0)
      ⟨[1, 224, 224, 3], fun _ => 0⟩ 0).2⟩

/-- C7 counterexample: the constructor performs no validation.
`ResUnit(64, strides=1)` is constructed successfully with the empty
identity skip path; on an input whose channel count 3 differs from the
64 filters, the merge is undefined (the elementwise add fails at
evaluation time), while on a matching input the same unit evaluates
fine — so the invalid configuration is neither rejected at
construction nor excluded by any enforced precondition. -/
theorem c7_counterexample :
    (ResUnit.init 64 1 "relu").skip_layers = [] ∧
    ResUnit.callShape (ResUnit.init 64 1 "relu") [1, 56, 56, 3] = none ∧
    ResUnit.callShape (ResUnit.init 64 1 "relu") [1, 56, 56, 64] = some [1, 56, 56, 64] := by
  refine ⟨rfl, by decide, by decide⟩

/-- C7 amended: the constructor accepts `strides = 1` with any filter
count and builds the identity skip path without any channel-count
check; the mismatch with an input of a different channel count
surfaces only at evaluation time, where the elementwise add of the two
paths' outputs is undefined — the unit never silently produces a
result there. -/
theorem c7_no_construction_check (filters : ℕ) (a : String) (n h w c : ℕ)
    (hc : c ≠ filters) :
    (ResUnit.init filters 1 a).skip_layers = [] ∧
    ResUnit.callShape (ResUnit.init filters 1 a) [n, h, w, c] = none := by
  refine ⟨by simp [ResUnit.init], ?_⟩
  simp [ResUnit.callShape, applySeqShape, subShape, ResUnit.init, DefaultConv2D,
    ceilDiv, addShape, Ne.symm hc]

/-- Witness for C7's amended statement at `filters = 64`, input channel
count 3. -/
theorem c7_no_construction_check_witness :
    (3 : ℕ) ≠ 64 ∧
    ((ResUnit.init 64 1 "relu").skip_layers = [] ∧
      ResUnit.callShape (ResUnit.init 64 1 "relu") [2, 112, 112, 3] = none) :=
  ⟨by decide, c7_no_construction_check 64 "relu" 2 112 112 3 (by decide)⟩
